import Mathlib

/-!
Shallow embedding of the KusionStack component-base logging package
(package `log`: `logger.go`, the configuration file with `Configure`,
`prepZap`, `updateLogger` and `formatDate`, and the options file with
`Level`, the level maps and `Options`/`DefaultOptions`).

Conventions of the embedding:
* Go `Level` is `int32` with iota constants; levels are only ever the
  six constants 0..5, so we embed `Level` as `Nat` with the same values.
* Go maps are embedded as functions into `Option`.
* External collaborators (the zap core write, `zap.Open`, `fmt.Sprintf`)
  are parameters (oracles) of the embedded operations.
* Stateful code (the sinks written to, the error sink, the exit calls)
  is embedded as explicit state passing over a `SinkState` trace record.
-/

namespace ComponentBase.Log

/-- Go: `type Level int32`; the constants below are the iota values, and
all comparisons in the source are integer comparisons on these values. -/
abbrev Level := Nat

/-- Go: `NoneLevel Level = iota` (disables logging). -/
def NoneLevel : Level := 0

/-- Go: `FatalLevel` (iota = 1). -/
def FatalLevel : Level := 1

/-- Go: `ErrorLevel` (iota = 2). -/
def ErrorLevel : Level := 2

/-- Go: `WarnLevel` (iota = 3). -/
def WarnLevel : Level := 3

/-- Go: `InfoLevel` (iota = 4). -/
def InfoLevel : Level := 4

/-- Go: `DebugLevel` (iota = 5). -/
def DebugLevel : Level := 5

/-- Go: `DefaultLoggerName = "default"`. -/
def DefaultLoggerName : String := "default"

/-- Go: `DefaultOutputLevel = InfoLevel`. -/
def DefaultOutputLevel : Level := InfoLevel

/-- Go: `DefaultStackTraceLevel = NoneLevel`. -/
def DefaultStackTraceLevel : Level := NoneLevel

/-- Go: `DefaultOutputPath = "stdout"`. -/
def DefaultOutputPath : String := "stdout"

/-- Go: `DefaultErrorOutputPath = "stderr"`. -/
def DefaultErrorOutputPath : String := "stderr"

/-- Go: `DefaultRotationMaxAge = 30`. -/
def DefaultRotationMaxAge : Int := 30

/-- Go: `DefaultRotationMaxSize = 100 * 1024 * 1024`. -/
def DefaultRotationMaxSize : Int := 100 * 1024 * 1024

/-- Go: `DefaultRotationMaxBackups = 1000`. -/
def DefaultRotationMaxBackups : Int := 1000

/-- Go map `levelToString`; embedded as a function into `Option String`
(`none` models a key missing from the map). -/
def levelToString (l : Level) : Option String :=
  if l = DebugLevel then some "debug"
  else if l = InfoLevel then some "info"
  else if l = WarnLevel then some "warn"
  else if l = ErrorLevel then some "error"
  else if l = FatalLevel then some "fatal"
  else if l = NoneLevel then some "none"
  else none

/-- Go map `stringToLevel`; `none` models a key missing from the map
(the comma-ok lookup in `updateLogger` reports `ok = false`). -/
def stringToLevel (s : String) : Option Level :=
  if s = "debug" then some DebugLevel
  else if s = "info" then some InfoLevel
  else if s = "warn" then some WarnLevel
  else if s = "error" then some ErrorLevel
  else if s = "fatal" then some FatalLevel
  else if s = "none" then some NoneLevel
  else none

/-- Go: `levelListString = []string{"debug", "info", "warn", "error", "fatal", "none"}`. -/
def levelListString : List String := ["debug", "info", "warn", "error", "fatal", "none"]

/-- The six valid `Level` values, in iota order. -/
def validLevels : List Level :=
  [NoneLevel, FatalLevel, ErrorLevel, WarnLevel, InfoLevel, DebugLevel]

/-- The zap levels this package ever passes around (`zapcore.Level`
restricted to the five values that appear in the source maps). -/
inductive ZapLevel where
  | debug
  | info
  | warn
  | error
  | fatal
deriving DecidableEq, Repr

/-- Go map `toLevel` (`map[zapcore.Level]Level`); total on the five
embedded zap levels, exactly the entries of the source map. -/
def toLevel : ZapLevel → Level
  | .debug => DebugLevel
  | .info => InfoLevel
  | .warn => WarnLevel
  | .error => ErrorLevel
  | .fatal => FatalLevel

/-- Go struct `Options` (the configuration snapshot). Go `int` fields are
embedded as `Int`. -/
structure Options where
  OutputPath : String
  ErrorOutputPath : String
  RotateOutputPath : String
  RotationMaxSize : Int
  RotationMaxAge : Int
  RotationMaxBackups : Int
  JSONEncoding : Bool
  OutputLevel : String
  StackTraceLevel : String
  LogCaller : Bool
deriving DecidableEq, Repr

/-- Go: `DefaultOptions()`. The two level names are read from the
`levelToString` map (a plain Go map read yields the zero value `""` for a
missing key, modelled with `getD ""`). -/
def DefaultOptions : Options :=
  { OutputPath := DefaultOutputPath
    ErrorOutputPath := DefaultErrorOutputPath
    RotateOutputPath := ""
    RotationMaxSize := DefaultRotationMaxSize
    RotationMaxAge := DefaultRotationMaxAge
    RotationMaxBackups := DefaultRotationMaxBackups
    JSONEncoding := false
    OutputLevel := (levelToString InfoLevel).getD ""
    StackTraceLevel := (levelToString NoneLevel).getD ""
    LogCaller := false }

/-- The mutable state of the Go `logger` struct: its identity fields and
the three atomically stored settings. (The atomics are only ever read
after having been stored at least once on every path exercised here; the
fresh logger made by `updateLogger` is modelled with Go zero values.) -/
structure LoggerState where
  name : String
  callerSkip : Nat
  outputLevel : Level
  stackTraceLevel : Level
  logCallers : Bool
deriving DecidableEq, Repr

/-- Go: `SetOutputLevel` stores the level atomically. -/
def SetOutputLevel (l : LoggerState) (level : Level) : LoggerState :=
  { l with outputLevel := level }

/-- Go: `GetOutputLevel`. -/
def GetOutputLevel (l : LoggerState) : Level :=
  l.outputLevel

/-- Go: `SetStackTraceLevel`. -/
def SetStackTraceLevel (l : LoggerState) (level : Level) : LoggerState :=
  { l with stackTraceLevel := level }

/-- Go: `SetLogCallers`. -/
def SetLogCallers (l : LoggerState) (b : Bool) : LoggerState :=
  { l with logCallers := b }

/-- Go: `updateLogger(opts)`. It mutates the package singleton step by
step, so it is embedded as a state transformer: the result pairs the
returned error (if any) with the logger state AFTER the call, including
mutations already performed before a failing check. The fresh logger of
the lazy-construction branch carries Go zero values plus
`callerSkip = 1` as in the source. Note the source slip kept here: the
stack-trace error message interpolates `opts.OutputLevel`. -/
def updateLogger (prev : Option LoggerState) (opts : Options) :
    Option String × LoggerState :=
  let l := match prev with
    | some l => l
    | none =>
      { name := "", callerSkip := 1, outputLevel := 0, stackTraceLevel := 0,
        logCallers := false }
  match stringToLevel opts.OutputLevel with
  | none => (some ("invalid output level " ++ opts.OutputLevel), l)
  | some level =>
    let l := SetOutputLevel l level
    match
      (if opts.StackTraceLevel.length ≠ 0 then
        match stringToLevel opts.StackTraceLevel with
        | none => (some ("invalid stack trace level " ++ opts.OutputLevel), l)
        | some stl => (none, SetStackTraceLevel l stl)
      else (none, l) : Option String × LoggerState) with
    | (some e, l) => (some e, l)
    | (none, l) => (none, SetLogCallers l opts.LogCaller)

/-- The `zapcore.Entry` fields this package actually sets in
`logger.output`: message, level, a time tag, the logger name (set only
when the name differs from `DefaultLoggerName`), and whether the caller
and stack fields were filled in (their text comes from the runtime and
from zap, both external). -/
structure Entry where
  message : String
  level : ZapLevel
  time : Nat
  loggerName : Option String
  hasCaller : Bool
  hasStack : Bool
deriving DecidableEq, Repr

/-- Observable trace of the sink side of the system: the entries handed
to the installed write function (in order), the diagnostic lines printed
to the error sink, the number of error-sink `Sync` calls, and the exit
codes passed to the process-exit function (in order). -/
structure SinkState where
  writes : List Entry
  errorSinkLines : List String
  errorSinkSyncs : Nat
  exitCalls : List Int
deriving DecidableEq, Repr

/-- The empty sink trace. -/
def SinkState.empty : SinkState :=
  { writes := [], errorSinkLines := [], errorSinkSyncs := 0, exitCalls := [] }

/-- The Go `functionTable` as observable here: whether `write` is
non-nil, and an oracle giving the outcome of the underlying
`baseLogger.Write` for each entry (`none` = success, `some msg` = the
error returned by the zap core / sink). The sync, close and error-sink
handles are captured in `SinkState`. -/
structure functionTable where
  writeActive : Bool
  writeResult : Entry → Option String

/-- The `ft.write` closure built inside `Configure`: run
`baseLogger.Write(ent, fields)` (record the invocation and take the
outcome from the oracle), then, if the entry level is Fatal, invoke the
process-exit function of the (re-loaded, here: same) table with code 1,
and return the write error. -/
def ftWrite (ft : functionTable) (e : Entry) (s : SinkState) :
    Option String × SinkState :=
  let res := ft.writeResult e
  let s1 := { s with writes := s.writes ++ [e] }
  let s2 :=
    if e.level = ZapLevel.fatal then
      { s1 with exitCalls := s1.exitCalls ++ [1] }
    else s1
  (res, s2)

/-- The entry constructed by `logger.output`: message and level as
passed; `LoggerName` set only for a non-default name; `Caller` filled
when caller logging is on; `Stack` filled when the stack-trace level is
at or above `toLevel[level]`. -/
def mkEntry (l : LoggerState) (now : Nat) (level : ZapLevel) (msg : String) :
    Entry :=
  { message := msg
    level := level
    time := now
    loggerName := if l.name = DefaultLoggerName then none else some l.name
    hasCaller := l.logCallers
    hasStack := decide (l.stackTraceLevel ≥ toLevel level) }

/-- The diagnostic line `fmt.Fprintf(ft.errorSink, "%v log write error: %v\n", time.Now(), err)`
prints (the fresh `time.Now()` is modelled by the same instant tag). -/
def writeErrorDiag (now : Nat) (err : String) : String :=
  toString now ++ " log write error: " ++ err ++ "\n"

/-- Go: `logger.output(level, msg)`. Builds the entry, loads the current
function table and, when its write function is non-nil, hands the entry
to it; a write error is printed to the error sink as a diagnostic line,
the error sink is synced, and the error is swallowed (the function
returns only the new sink trace, no error). -/
def output (l : LoggerState) (ft : functionTable) (now : Nat)
    (level : ZapLevel) (msg : String) (s : SinkState) : SinkState :=
  let e := mkEntry l now level msg
  if ft.writeActive then
    match ftWrite ft e s with
    | (some err, s2) =>
      { s2 with
        errorSinkLines := s2.errorSinkLines ++ [writeErrorDiag now err]
        errorSinkSyncs := s2.errorSinkSyncs + 1 }
    | (none, s2) => s2
  else s

/-- Go: `maybeSprintf(format, args...)`; the Sprintf itself is the
external `fmt.Sprintf`, passed as an oracle. -/
def maybeSprintf (sprintf : String → List String → String)
    (format : String) (args : List String) : String :=
  if args.length > 0 then sprintf format args else format

/-- Go: `logger.Info(field)` (the `fmt.Sprint` of a string field is the
string itself; messages are embedded as strings). -/
def Info (l : LoggerState) (ft : functionTable) (now : Nat)
    (field : String) (s : SinkState) : SinkState :=
  if GetOutputLevel l ≥ InfoLevel then output l ft now ZapLevel.info field s
  else s

/-- Go: `logger.Infof(format, fields...)`. -/
def Infof (l : LoggerState) (ft : functionTable) (now : Nat)
    (sprintf : String → List String → String) (format : String)
    (fields : List String) (s : SinkState) : SinkState :=
  if GetOutputLevel l ≥ InfoLevel then
    output l ft now ZapLevel.info (maybeSprintf sprintf format fields) s
  else s

/-- Go: `logger.InfoEnabled()`. -/
def InfoEnabled (l : LoggerState) : Bool :=
  decide (GetOutputLevel l ≥ InfoLevel)

/-- Go: `logger.Debug(field)`. -/
def Debug (l : LoggerState) (ft : functionTable) (now : Nat)
    (field : String) (s : SinkState) : SinkState :=
  if GetOutputLevel l ≥ DebugLevel then output l ft now ZapLevel.debug field s
  else s

/-- Go: `logger.Debugf(format, fields...)`. -/
def Debugf (l : LoggerState) (ft : functionTable) (now : Nat)
    (sprintf : String → List String → String) (format : String)
    (fields : List String) (s : SinkState) : SinkState :=
  if GetOutputLevel l ≥ DebugLevel then
    output l ft now ZapLevel.debug (maybeSprintf sprintf format fields) s
  else s

/-- Go: `logger.DebugEnabled()`. -/
def DebugEnabled (l : LoggerState) : Bool :=
  decide (GetOutputLevel l ≥ DebugLevel)

/-- Go: `logger.Warn(field)`. -/
def Warn (l : LoggerState) (ft : functionTable) (now : Nat)
    (field : String) (s : SinkState) : SinkState :=
  if GetOutputLevel l ≥ WarnLevel then output l ft now ZapLevel.warn field s
  else s

/-- Go: `logger.Warnf(format, fields...)`. -/
def Warnf (l : LoggerState) (ft : functionTable) (now : Nat)
    (sprintf : String → List String → String) (format : String)
    (fields : List String) (s : SinkState) : SinkState :=
  if GetOutputLevel l ≥ WarnLevel then
    output l ft now ZapLevel.warn (maybeSprintf sprintf format fields) s
  else s

/-- Go: `logger.WarnEnabled()`. -/
def WarnEnabled (l : LoggerState) : Bool :=
  decide (GetOutputLevel l ≥ WarnLevel)

/-- Go: `logger.Error(field)`. -/
def Error (l : LoggerState) (ft : functionTable) (now : Nat)
    (field : String) (s : SinkState) : SinkState :=
  if GetOutputLevel l ≥ ErrorLevel then output l ft now ZapLevel.error field s
  else s

/-- Go: `logger.Errorf(format, fields...)`. -/
def Errorf (l : LoggerState) (ft : functionTable) (now : Nat)
    (sprintf : String → List String → String) (format : String)
    (fields : List String) (s : SinkState) : SinkState :=
  if GetOutputLevel l ≥ ErrorLevel then
    output l ft now ZapLevel.error (maybeSprintf sprintf format fields) s
  else s

/-- Go: `logger.ErrorEnabled()`. -/
def ErrorEnabled (l : LoggerState) : Bool :=
  decide (GetOutputLevel l ≥ ErrorLevel)

/-- Go: `logger.Fatal(field)`. -/
def Fatal (l : LoggerState) (ft : functionTable) (now : Nat)
    (field : String) (s : SinkState) : SinkState :=
  if GetOutputLevel l ≥ FatalLevel then output l ft now ZapLevel.fatal field s
  else s

/-- Go: `logger.Fatalf(format, fields...)`. -/
def Fatalf (l : LoggerState) (ft : functionTable) (now : Nat)
    (sprintf : String → List String → String) (format : String)
    (fields : List String) (s : SinkState) : SinkState :=
  if GetOutputLevel l ≥ FatalLevel then
    output l ft now ZapLevel.fatal (maybeSprintf sprintf format fields) s
  else s

/-- Go: `logger.FatalEnabled()`. -/
def FatalEnabled (l : LoggerState) : Bool :=
  decide (GetOutputLevel l ≥ FatalLevel)

/-- Observable outcome of `prepZap(options)`: the returned error (if
any), the path the error sink was opened from (when that `zap.Open`
succeeded), whether the primary output sink was opened, whether a
rotating sink was configured, the paths passed to `zap.Open` in call
order, and whether the `closeErrorSink` cleanup closure was invoked. -/
structure PrepOutcome where
  err : Option String
  errSinkPath : Option String
  outputSinkOpened : Bool
  rotaterConfigured : Bool
  openCalls : List String
  errorSinkClosed : Bool
deriving DecidableEq, Repr

/-- Go: `prepZap(options)`. `openSink` is the `zap.Open` oracle
(`none` = the path opens fine, `some msg` = opening fails). The source
first builds the optional rotating sink, then opens the error sink —
passing `options.OutputPath` to `zap.Open` — then, when `OutputPath` is
non-empty, opens the primary output sink from `options.OutputPath`,
invoking `closeErrorSink()` before returning if that second open
fails. -/
def prepZap (openSink : String → Option String) (opts : Options) :
    PrepOutcome :=
  let rotater := opts.RotateOutputPath ≠ ""
  match openSink opts.OutputPath with
  | some e =>
    { err := some e, errSinkPath := none, outputSinkOpened := false,
      rotaterConfigured := rotater, openCalls := [opts.OutputPath],
      errorSinkClosed := false }
  | none =>
    if opts.OutputPath.length > 0 then
      match openSink opts.OutputPath with
      | some e =>
        { err := some e, errSinkPath := some opts.OutputPath,
          outputSinkOpened := false, rotaterConfigured := rotater,
          openCalls := [opts.OutputPath, opts.OutputPath],
          errorSinkClosed := true }
      | none =>
        { err := none, errSinkPath := some opts.OutputPath,
          outputSinkOpened := true, rotaterConfigured := rotater,
          openCalls := [opts.OutputPath, opts.OutputPath],
          errorSinkClosed := false }
    else
      { err := none, errSinkPath := some opts.OutputPath,
        outputSinkOpened := false, rotaterConfigured := rotater,
        openCalls := [opts.OutputPath],
        errorSinkClosed := false }

/-- Observable outcome of `Configure(opts)`: the returned error (if
any), the singleton logger state after the call (mutations made by
`updateLogger` persist even when `Configure` fails later), and the sink
assembly outcome when `prepZap` was reached. -/
structure ConfigureOutcome where
  err : Option String
  logger : LoggerState
  prep : Option PrepOutcome
deriving Repr

/-- Go: `Configure(opts)` up to the observable points the claims are
about: run `updateLogger`, return its error if it fails; then run
`prepZap`, return its error if it fails; otherwise install the new
function table and zap globals (external) and return nil. -/
def Configure (openSink : String → Option String)
    (prev : Option LoggerState) (opts : Options) : ConfigureOutcome :=
  match updateLogger prev opts with
  | (some e, l) => { err := some e, logger := l, prep := none }
  | (none, l) =>
    let p := prepZap openSink opts
    match p.err with
    | some e => { err := some e, logger := l, prep := some p }
    | none => { err := none, logger := l, prep := some p }

/-- Go byte arithmetic `byte(d) + '0'` for a decimal digit `d` (all the
digits below are reduced mod 10 before this is applied). -/
def goDigitChar (d : Nat) : Char :=
  Char.ofNat (48 + d)

/-- The UTC clock/calendar components `formatDate` reads off the time
after `t = t.UTC()`: `t.Date()`, `t.Clock()` and `t.Nanosecond()`. -/
structure GoTime where
  year : Nat
  month : Nat
  day : Nat
  hour : Nat
  minute : Nat
  second : Nat
  nanos : Nat
deriving DecidableEq, Repr

/-- The component ranges every real UTC instant satisfies (the year is
unbounded above: Go times can have five or more year digits). -/
def GoTime.valid (t : GoTime) : Prop :=
  1 ≤ t.month ∧ t.month ≤ 12 ∧ 1 ≤ t.day ∧ t.day ≤ 31 ∧
    t.hour ≤ 23 ∧ t.minute ≤ 59 ∧ t.second ≤ 59 ∧ t.nanos ≤ 999999999

instance (t : GoTime) : Decidable t.valid := by
  unfold GoTime.valid
  infer_instance

/-- Go: `formatDate(t, enc)`; the 27-byte buffer it fills, literally
transcribed (with `micros := t.Nanosecond() / 1000`). -/
def formatDate (t : GoTime) : String :=
  let micros := t.nanos / 1000
  String.mk
    [goDigitChar (t.year / 1000 % 10),
     goDigitChar (t.year / 100 % 10),
     goDigitChar (t.year / 10 % 10),
     goDigitChar (t.year % 10),
     '-',
     goDigitChar (t.month / 10),
     goDigitChar (t.month % 10),
     '-',
     goDigitChar (t.day / 10),
     goDigitChar (t.day % 10),
     'T',
     goDigitChar (t.hour / 10),
     goDigitChar (t.hour % 10),
     ':',
     goDigitChar (t.minute / 10),
     goDigitChar (t.minute % 10),
     ':',
     goDigitChar (t.second / 10),
     goDigitChar (t.second % 10),
     '.',
     goDigitChar (micros / 100000 % 10),
     goDigitChar (micros / 10000 % 10),
     goDigitChar (micros / 1000 % 10),
     goDigitChar (micros / 100 % 10),
     goDigitChar (micros / 10 % 10),
     goDigitChar (micros % 10),
     'Z']

/-- Structural worker for `natDecimal` (fuel-based so that terms reduce
definitionally; the fuel is always sufficient as `natDecimal` passes
`n + 1`). -/
def natDecimalAux : Nat → Nat → List Char
  | 0, _ => []
  | fuel + 1, n =>
    if n < 10 then [goDigitChar n]
    else natDecimalAux fuel (n / 10) ++ [goDigitChar (n % 10)]

/-- The decimal digit list of a natural number (most significant digit
first), the usual recursive definition. -/
def natDecimal (n : Nat) : List Char :=
  natDecimalAux (n + 1) n

/-- Decimal rendering of `n` zero-padded on the left to at least `w`
characters (never truncating: large numbers keep all their digits). -/
def padDecimal (w n : Nat) : List Char :=
  List.replicate (w - (natDecimal n).length) (goDigitChar 0) ++ natDecimal n

/-- Fixed-width divmod digit rendering (keeps exactly the low `w`
decimal digits, truncating higher ones); the proof-side normal form that
the 27-byte buffer of `formatDate` flattens into. -/
def fixedDigits : Nat → Nat → List Char
  | 0, _ => []
  | w + 1, n => fixedDigits w (n / 10) ++ [goDigitChar (n % 10)]

/-- The timestamp demanded by the spec sentence, built from its words:
the UTC components rendered as zero-padded decimal fields
`YYYY-MM-DDTHH:MM:SS.mmmmmmZ` with four year digits, microsecond
precision (`micros = nanos / 1000`) and a literal trailing `Z`. -/
def specTimestamp (t : GoTime) : String :=
  String.mk
    (padDecimal 4 t.year ++ ['-'] ++ padDecimal 2 t.month ++ ['-'] ++
      padDecimal 2 t.day ++ ['T'] ++ padDecimal 2 t.hour ++ [':'] ++
      padDecimal 2 t.minute ++ [':'] ++ padDecimal 2 t.second ++ ['.'] ++
      padDecimal 6 (t.nanos / 1000) ++ ['Z'])

/-! ## Helper lemmas (shared) -/

theorem natDecimalAux_irrel (n : Nat) :
    ∀ f, n < f → natDecimalAux f n = natDecimal n := by
  induction n using Nat.strong_induction_on with
  | _ n ih =>
    intro f hf
    match f, hf with
    | f + 1, hf =>
      by_cases h10 : n < 10
      · simp [natDecimal, natDecimalAux, h10]
      · have hdiv : n / 10 < n := Nat.div_lt_self (by omega) (by omega)
        have h1 : natDecimalAux f (n / 10) = natDecimal (n / 10) :=
          ih _ hdiv _ (by omega)
        have h2 : natDecimalAux n (n / 10) = natDecimal (n / 10) :=
          ih _ hdiv _ hdiv
        simp [natDecimal, natDecimalAux, h10, h1, h2]

theorem natDecimal_eq (n : Nat) :
    natDecimal n =
      if n < 10 then [goDigitChar n]
      else natDecimal (n / 10) ++ [goDigitChar (n % 10)] := by
  by_cases h10 : n < 10
  · simp [natDecimal, natDecimalAux, h10]
  · have hdiv : n / 10 < n := Nat.div_lt_self (by omega) (by omega)
    simp [natDecimal, natDecimalAux, h10, natDecimalAux_irrel _ _ hdiv]

theorem fixedDigits_zero (w : Nat) :
    fixedDigits w 0 = List.replicate w (goDigitChar 0) := by
  induction w with
  | zero => rfl
  | succ w ih =>
    rw [fixedDigits, Nat.zero_div, Nat.zero_mod, ih, List.replicate_succ']

theorem padDecimal_eq_fixed (w : Nat) (hw : 1 ≤ w) :
    ∀ n, n < 10 ^ w → padDecimal w n = fixedDigits w n := by
  induction w, hw using Nat.le_induction with
  | base =>
    intro n hn
    have h10 : n < 10 := by simpa using hn
    have hmod : n % 10 = n := Nat.mod_eq_of_lt h10
    have hdiv : n / 10 = 0 := Nat.div_eq_of_lt h10
    simp [padDecimal, natDecimal_eq, h10, fixedDigits, hmod, hdiv]
  | succ w hw ih =>
    intro n hn
    by_cases h10 : n < 10
    · have hmod : n % 10 = n := Nat.mod_eq_of_lt h10
      have hdiv : n / 10 = 0 := Nat.div_eq_of_lt h10
      have hnd : natDecimal n = [goDigitChar n] := by
        rw [natDecimal_eq, if_pos h10]
      rw [show fixedDigits (w + 1) n
          = fixedDigits w (n / 10) ++ [goDigitChar (n % 10)] from rfl,
        hdiv, fixedDigits_zero, hmod]
      rw [padDecimal, hnd]
      simp [List.replicate_succ']
    · have hdivlt : n / 10 < 10 ^ w := by
        have h1 : (0 : Nat) < 10 := by omega
        rw [Nat.div_lt_iff_lt_mul h1]
        calc n < 10 ^ (w + 1) := hn
          _ = 10 ^ w * 10 := pow_succ 10 w
      have hrec : natDecimal n = natDecimal (n / 10) ++ [goDigitChar (n % 10)] := by
        rw [natDecimal_eq, if_neg h10]
      have hlen : (natDecimal n).length = (natDecimal (n / 10)).length + 1 := by
        rw [hrec]; simp
      calc padDecimal (w + 1) n
          = List.replicate ((w + 1) - (natDecimal n).length) (goDigitChar 0)
              ++ natDecimal n := rfl
        _ = List.replicate (w - (natDecimal (n / 10)).length) (goDigitChar 0)
              ++ (natDecimal (n / 10) ++ [goDigitChar (n % 10)]) := by
            rw [hlen, hrec, Nat.succ_sub_succ]
        _ = padDecimal w (n / 10) ++ [goDigitChar (n % 10)] := by
            rw [padDecimal, List.append_assoc]
        _ = fixedDigits w (n / 10) ++ [goDigitChar (n % 10)] := by
            rw [ih _ hdivlt]
        _ = fixedDigits (w + 1) n := rfl

theorem padDecimal_two (n : Nat) (h : n ≤ 99) :
    padDecimal 2 n = [goDigitChar (n / 10), goDigitChar (n % 10)] := by
  rw [padDecimal_eq_fixed 2 (by omega) n
    (by simp only [pow_succ, pow_zero, one_mul]; omega)]
  have hmod : n / 10 % 10 = n / 10 := Nat.mod_eq_of_lt (by omega)
  simp [fixedDigits, hmod]

theorem padDecimal_four (n : Nat) (h : n ≤ 9999) :
    padDecimal 4 n =
      [goDigitChar (n / 1000 % 10), goDigitChar (n / 100 % 10),
        goDigitChar (n / 10 % 10), goDigitChar (n % 10)] := by
  rw [padDecimal_eq_fixed 4 (by omega) n
    (by simp only [pow_succ, pow_zero, one_mul]; omega)]
  have h4 : n / 10 / 10 / 10 % 10 = n / 1000 % 10 := by
    rw [Nat.div_div_eq_div_mul, Nat.div_div_eq_div_mul]
  have h3 : n / 10 / 10 % 10 = n / 100 % 10 := by
    rw [Nat.div_div_eq_div_mul]
  simp [fixedDigits, h4, h3]

theorem padDecimal_six (n : Nat) (h : n ≤ 999999) :
    padDecimal 6 n =
      [goDigitChar (n / 100000 % 10), goDigitChar (n / 10000 % 10),
        goDigitChar (n / 1000 % 10), goDigitChar (n / 100 % 10),
        goDigitChar (n / 10 % 10), goDigitChar (n % 10)] := by
  rw [padDecimal_eq_fixed 6 (by omega) n
    (by simp only [pow_succ, pow_zero, one_mul]; omega)]
  have h6 : n / 10 / 10 / 10 / 10 / 10 % 10 = n / 100000 % 10 := by
    simp only [Nat.div_div_eq_div_mul]
  have h5 : n / 10 / 10 / 10 / 10 % 10 = n / 10000 % 10 := by
    simp only [Nat.div_div_eq_div_mul]
  have h4 : n / 10 / 10 / 10 % 10 = n / 1000 % 10 := by
    simp only [Nat.div_div_eq_div_mul]
  have h3 : n / 10 / 10 % 10 = n / 100 % 10 := by
    simp only [Nat.div_div_eq_div_mul]
  simp [fixedDigits, h6, h5, h4, h3]

theorem output_writes (l : LoggerState) (ft : functionTable) (now : Nat)
    (zl : ZapLevel) (msg : String) (s : SinkState)
    (h : ft.writeActive = true) :
    (output l ft now zl msg s).writes = s.writes ++ [mkEntry l now zl msg] := by
  unfold output ftWrite
  rw [if_pos h]
  cases hres : ft.writeResult (mkEntry l now zl msg) <;>
    · simp only []
      split <;> rfl

theorem output_exitCalls_fatal (l : LoggerState) (ft : functionTable)
    (now : Nat) (msg : String) (s : SinkState)
    (h : ft.writeActive = true) :
    (output l ft now ZapLevel.fatal msg s).exitCalls = s.exitCalls ++ [1] := by
  unfold output ftWrite
  rw [if_pos h]
  cases hres : ft.writeResult (mkEntry l now ZapLevel.fatal msg) <;> rfl

theorem guard_output_writes (c : Prop) [Decidable c] (l : LoggerState)
    (ft : functionTable) (now : Nat) (zl : ZapLevel) (msg : String)
    (s : SinkState) (h : ft.writeActive = true) :
    (if c then output l ft now zl msg s else s).writes =
      if c then s.writes ++ [mkEntry l now zl msg] else s.writes := by
  split
  · exact output_writes l ft now zl msg s h
  · rfl

/-! ## Claim theorems -/

/-- C4: `DefaultOptions()` returns stdout output, stderr error output,
info output level, none stack-trace level, caller logging off,
30-day rotation age cap and 1000-backup cap — but its RotationMaxSize
is `100 * 1024 * 1024 = 104857600`, not 100, although the unit of the
field (and of the `log_rotate_max_size` flag bound to it) is megabytes
per the field documentation ("It defaults to 100 megabytes"), so the
default is not a 100-megabyte cap. -/
theorem defaultOptions_rotation_size_divergence :
    DefaultOptions.OutputPath = "stdout" ∧
    DefaultOptions.ErrorOutputPath = "stderr" ∧
    DefaultOptions.OutputLevel = "info" ∧
    DefaultOptions.StackTraceLevel = "none" ∧
    DefaultOptions.LogCaller = false ∧
    DefaultOptions.RotationMaxAge = 30 ∧
    DefaultOptions.RotationMaxBackups = 1000 ∧
    DefaultOptions.RotationMaxSize = 104857600 ∧
    DefaultOptions.RotationMaxSize ≠ 100 := by
  decide

/-- C6: the Level/string maps are a bijection on the six valid levels:
converting any valid level to its name and parsing it back is the
identity, and parsing any string outside the six canonical names
fails (returns no level rather than coercing). -/
theorem level_string_bijection :
    (∀ l, l ∈ validLevels → (levelToString l).bind stringToLevel = some l) ∧
    (∀ s, s ∉ levelListString → stringToLevel s = none) := by
  constructor
  · decide
  · intro s hs
    simp only [stringToLevel]
    split_ifs with h1 h2 h3 h4 h5 h6
    · subst h1; simp [levelListString] at hs
    · subst h2; simp [levelListString] at hs
    · subst h3; simp [levelListString] at hs
    · subst h4; simp [levelListString] at hs
    · subst h5; simp [levelListString] at hs
    · subst h6; simp [levelListString] at hs
    · rfl

/-- C6 witness: the bijection theorem applied at the concrete level
`DebugLevel` and the concrete invalid name "bogus". -/
theorem level_string_bijection_witness :
    (levelToString DebugLevel).bind stringToLevel = some DebugLevel ∧
    stringToLevel "bogus" = none :=
  ⟨level_string_bijection.1 DebugLevel (by decide),
   level_string_bijection.2 "bogus" (by decide)⟩

/-- C2: evaluated at the default options (OutputPath "stdout",
ErrorOutputPath "stderr") with an open oracle on which both standard
sentinels succeed, `prepZap` opens BOTH sinks from "stdout": the
`zap.Open` call for the error sink receives `options.OutputPath`, and
`options.ErrorOutputPath` ("stderr") is never passed to any open call,
contradicting the documented purpose of the ErrorOutputPath field. -/
theorem prepZap_error_sink_uses_output_path :
    ((prepZap
        (fun p => if p = "stdout" ∨ p = "stderr" then none else some "open failed")
        DefaultOptions).err = none) ∧
    ((prepZap
        (fun p => if p = "stdout" ∨ p = "stderr" then none else some "open failed")
        DefaultOptions).errSinkPath = some "stdout") ∧
    ((prepZap
        (fun p => if p = "stdout" ∨ p = "stderr" then none else some "open failed")
        DefaultOptions).openCalls = ["stdout", "stdout"]) ∧
    DefaultOptions.ErrorOutputPath = "stderr" ∧
    ("stdout" : String) ≠ "stderr" := by
  decide

/-- C3 counterexample: a failed `Configure` does NOT leave the previous
configuration fully in effect. Starting from output level Debug, a call
whose OutputLevel is the valid "info" but whose StackTraceLevel "bogus"
is unrecognized returns an error, yet the singleton logger's output
level has been changed from Debug to Info by the failed call. -/
theorem updateLogger_failed_call_changes_output_level :
    ((updateLogger
        (some { name := "default", callerSkip := 1, outputLevel := DebugLevel,
                stackTraceLevel := NoneLevel, logCallers := false })
        { DefaultOptions with OutputLevel := "info",
                              StackTraceLevel := "bogus" }).1.isSome = true) ∧
    ((updateLogger
        (some { name := "default", callerSkip := 1, outputLevel := DebugLevel,
                stackTraceLevel := NoneLevel, logCallers := false })
        { DefaultOptions with OutputLevel := "info",
                              StackTraceLevel := "bogus" }).2.outputLevel
      = InfoLevel) ∧
    InfoLevel ≠ DebugLevel := by
  decide

/-- C3 amended: when OutputLevel is unrecognized, `updateLogger` fails
with the previous logger state fully retained; but when OutputLevel is
valid and a non-empty StackTraceLevel is unrecognized, the call fails
AFTER already applying the new output level — only the stack-trace
level and the caller flag retain their previous values. -/
theorem updateLogger_partial_on_invalid_stacktrace
    (pl : LoggerState) (opts : Options) :
    (stringToLevel opts.OutputLevel = none →
      updateLogger (some pl) opts =
        (some ("invalid output level " ++ opts.OutputLevel), pl)) ∧
    (∀ lv, stringToLevel opts.OutputLevel = some lv →
      opts.StackTraceLevel.length ≠ 0 →
      stringToLevel opts.StackTraceLevel = none →
      updateLogger (some pl) opts =
        (some ("invalid stack trace level " ++ opts.OutputLevel),
          SetOutputLevel pl lv)) := by
  constructor
  · intro h
    simp [updateLogger, h]
  · intro lv hlv hne hst
    simp [updateLogger, hlv, hne, hst]

/-- C3 witness: the amended theorem applied to a concrete previous state
and concrete options for both failure modes. -/
theorem updateLogger_partial_on_invalid_stacktrace_witness :
    (updateLogger
        (some { name := "default", callerSkip := 1, outputLevel := DebugLevel,
                stackTraceLevel := NoneLevel, logCallers := false })
        { DefaultOptions with OutputLevel := "bogus" } =
      (some "invalid output level bogus",
        { name := "default", callerSkip := 1, outputLevel := DebugLevel,
          stackTraceLevel := NoneLevel, logCallers := false })) ∧
    (updateLogger
        (some { name := "default", callerSkip := 1, outputLevel := DebugLevel,
                stackTraceLevel := NoneLevel, logCallers := false })
        { DefaultOptions with OutputLevel := "warn",
                              StackTraceLevel := "bogus" } =
      (some "invalid stack trace level warn",
        { name := "default", callerSkip := 1, outputLevel := WarnLevel,
          stackTraceLevel := NoneLevel, logCallers := false })) :=
  ⟨(updateLogger_partial_on_invalid_stacktrace _ _).1 (by decide),
   (updateLogger_partial_on_invalid_stacktrace _ _).2 WarnLevel
      (by decide) (by decide) (by decide)⟩

/-- C9 counterexample: an empty StackTraceLevel string is outside the
six canonical level names, yet `Configure` succeeds: the validation
branch is skipped entirely for the empty string (the previous
stack-trace level simply stays in effect). -/
theorem configure_accepts_empty_stacktrace_level :
    stringToLevel "" = none ∧
    ((Configure (fun _ => none)
        (some { name := "default", callerSkip := 1, outputLevel := DebugLevel,
                stackTraceLevel := NoneLevel, logCallers := false })
        { DefaultOptions with OutputLevel := "info",
                              StackTraceLevel := "" }).err = none) := by
  decide

/-- C9 amended: `Configure` fails whenever OutputLevel does not parse,
and whenever StackTraceLevel is NON-EMPTY and does not parse; an empty
StackTraceLevel is tolerated (with every open succeeding and a valid
OutputLevel, configuration succeeds). -/
theorem configure_level_validation
    (openSink : String → Option String) (prev : Option LoggerState)
    (opts : Options) :
    (stringToLevel opts.OutputLevel = none →
      (Configure openSink prev opts).err.isSome = true) ∧
    (opts.StackTraceLevel.length ≠ 0 →
      stringToLevel opts.StackTraceLevel = none →
      (Configure openSink prev opts).err.isSome = true) ∧
    ((∀ p, openSink p = none) →
      stringToLevel opts.OutputLevel ≠ none →
      opts.StackTraceLevel = "" →
      (Configure openSink prev opts).err = none) := by
  refine ⟨?_, ?_, ?_⟩
  · intro h
    simp [Configure, updateLogger, h]
  · intro hne hst
    cases hlv : stringToLevel opts.OutputLevel with
    | none => simp [Configure, updateLogger, hlv]
    | some lv => simp [Configure, updateLogger, hlv, hne, hst]
  · intro hopen hlv hempty
    cases hl : stringToLevel opts.OutputLevel with
    | none => exact absurd hl hlv
    | some lv =>
      have hlen : opts.StackTraceLevel.length = 0 := by
        rw [hempty]; rfl
      have hprep : (prepZap openSink opts).err = none := by
        simp only [prepZap, hopen]
        split <;> rfl
      simp [Configure, updateLogger, hl, hlen, hprep]

/-- C9 witness: the amended validation theorem applied at concrete
options for all three branches. -/
theorem configure_level_validation_witness :
    ((Configure (fun _ => none) none
        { DefaultOptions with OutputLevel := "bogus" }).err.isSome = true) ∧
    ((Configure (fun _ => none) none
        { DefaultOptions with StackTraceLevel := "bogus" }).err.isSome = true) ∧
    ((Configure (fun _ => none) none
        { DefaultOptions with StackTraceLevel := "" }).err = none) :=
  ⟨(configure_level_validation (fun _ => none) none _).1 (by decide),
   (configure_level_validation (fun _ => none) none _).2.1 (by decide) (by decide),
   (configure_level_validation (fun _ => none) none _).2.2
      (fun _ => rfl) (by decide) (by decide)⟩

/-- C1 counterexample: with the output level set to None, `Fatal` (and
`Fatalf`) neither write the entry nor invoke process-exit at all — zero
invocations, not the claimed exactly-once — because the level check
`GetOutputLevel() >= FatalLevel` guards the whole of `output`, and the
exit lives inside the installed write closure that is then never
reached. -/
theorem fatal_no_exit_at_none_level :
    ((Fatal
        { name := "default", callerSkip := 1, outputLevel := NoneLevel,
          stackTraceLevel := NoneLevel, logCallers := false }
        { writeActive := true, writeResult := fun _ => none }
        0 "boom" SinkState.empty).exitCalls = []) ∧
    ((Fatalf
        { name := "default", callerSkip := 1, outputLevel := NoneLevel,
          stackTraceLevel := NoneLevel, logCallers := false }
        { writeActive := true, writeResult := fun _ => none }
        0 (fun f _ => f) "boom" [] SinkState.empty).exitCalls = []) ∧
    ([] : List Int) ≠ [1] := by
  decide

/-- C1 amended: whenever the configured output level is at least Fatal
(that is, anything but None), `Fatal` and `Fatalf` invoke the
process-exit function of the installed table with status 1 exactly once,
after the entry has been handed to the write function, and regardless of
the write outcome (the write-result oracle is unconstrained); but when
the output level is None the entry is suppressed and process-exit is not
invoked at all. -/
theorem fatal_exit_requires_enabled (l : LoggerState) (ft : functionTable)
    (now : Nat) (sprintf : String → List String → String) (format : String)
    (fields : List String) (msg : String) (s : SinkState)
    (hact : ft.writeActive = true) :
    (GetOutputLevel l ≥ FatalLevel →
      (Fatal l ft now msg s).exitCalls = s.exitCalls ++ [1] ∧
      (Fatal l ft now msg s).writes =
        s.writes ++ [mkEntry l now ZapLevel.fatal msg] ∧
      (Fatalf l ft now sprintf format fields s).exitCalls =
        s.exitCalls ++ [1]) ∧
    (GetOutputLevel l < FatalLevel →
      Fatal l ft now msg s = s ∧ Fatalf l ft now sprintf format fields s = s) := by
  constructor
  · intro hen
    refine ⟨?_, ?_, ?_⟩
    · rw [Fatal, if_pos hen, output_exitCalls_fatal l ft now msg s hact]
    · rw [Fatal, if_pos hen, output_writes l ft now ZapLevel.fatal msg s hact]
    · rw [Fatalf, if_pos hen, output_exitCalls_fatal l ft now _ s hact]
  · intro hlt
    have hne : ¬ GetOutputLevel l ≥ FatalLevel := not_le.mpr hlt
    exact ⟨by rw [Fatal, if_neg hne], by rw [Fatalf, if_neg hne]⟩

/-- C1 witness: the amended theorem applied at a concrete logger whose
output level is Fatal itself (the weakest level at which the message is
emitted), showing exit fires with status 1 exactly once there. -/
theorem fatal_exit_requires_enabled_witness :
    GetOutputLevel
      { name := "default", callerSkip := 1, outputLevel := FatalLevel,
        stackTraceLevel := NoneLevel, logCallers := false } ≥ FatalLevel ∧
    (Fatal
      { name := "default", callerSkip := 1, outputLevel := FatalLevel,
        stackTraceLevel := NoneLevel, logCallers := false }
      { writeActive := true, writeResult := fun _ => none }
      0 "boom" SinkState.empty).exitCalls = SinkState.empty.exitCalls ++ [1] :=
  ⟨by decide,
   ((fatal_exit_requires_enabled
      { name := "default", callerSkip := 1, outputLevel := FatalLevel,
        stackTraceLevel := NoneLevel, logCallers := false }
      { writeActive := true, writeResult := fun _ => none }
      0 (fun f _ => f) "f" [] "boom" SinkState.empty rfl).1 (by decide)).1⟩

/-- C5: the iota values order the levels None < Fatal < Error < Warn <
Info < Debug; for every threshold T installed with `SetOutputLevel`,
each enablement query answers exactly "T ≥ required level"; and each
write method (plain and formatted variant) hands an entry to the
installed write function exactly when that enablement holds. -/
theorem level_threshold_enablement (l : LoggerState) (ft : functionTable)
    (now : Nat) (T : Level) (msg : String)
    (sprintf : String → List String → String) (format : String)
    (fields : List String) (s : SinkState)
    (hact : ft.writeActive = true) :
    (NoneLevel < FatalLevel ∧ FatalLevel < ErrorLevel ∧
      ErrorLevel < WarnLevel ∧ WarnLevel < InfoLevel ∧
      InfoLevel < DebugLevel) ∧
    (DebugEnabled (SetOutputLevel l T) = true ↔ T ≥ DebugLevel) ∧
    (InfoEnabled (SetOutputLevel l T) = true ↔ T ≥ InfoLevel) ∧
    (WarnEnabled (SetOutputLevel l T) = true ↔ T ≥ WarnLevel) ∧
    (ErrorEnabled (SetOutputLevel l T) = true ↔ T ≥ ErrorLevel) ∧
    (FatalEnabled (SetOutputLevel l T) = true ↔ T ≥ FatalLevel) ∧
    ((Debug (SetOutputLevel l T) ft now msg s).writes =
      if T ≥ DebugLevel then
        s.writes ++ [mkEntry (SetOutputLevel l T) now ZapLevel.debug msg]
      else s.writes) ∧
    ((Info (SetOutputLevel l T) ft now msg s).writes =
      if T ≥ InfoLevel then
        s.writes ++ [mkEntry (SetOutputLevel l T) now ZapLevel.info msg]
      else s.writes) ∧
    ((Warn (SetOutputLevel l T) ft now msg s).writes =
      if T ≥ WarnLevel then
        s.writes ++ [mkEntry (SetOutputLevel l T) now ZapLevel.warn msg]
      else s.writes) ∧
    ((Error (SetOutputLevel l T) ft now msg s).writes =
      if T ≥ ErrorLevel then
        s.writes ++ [mkEntry (SetOutputLevel l T) now ZapLevel.error msg]
      else s.writes) ∧
    ((Fatal (SetOutputLevel l T) ft now msg s).writes =
      if T ≥ FatalLevel then
        s.writes ++ [mkEntry (SetOutputLevel l T) now ZapLevel.fatal msg]
      else s.writes) ∧
    ((Debugf (SetOutputLevel l T) ft now sprintf format fields s).writes =
      if T ≥ DebugLevel then
        s.writes ++ [mkEntry (SetOutputLevel l T) now ZapLevel.debug
          (maybeSprintf sprintf format fields)]
      else s.writes) ∧
    ((Infof (SetOutputLevel l T) ft now sprintf format fields s).writes =
      if T ≥ InfoLevel then
        s.writes ++ [mkEntry (SetOutputLevel l T) now ZapLevel.info
          (maybeSprintf sprintf format fields)]
      else s.writes) ∧
    ((Warnf (SetOutputLevel l T) ft now sprintf format fields s).writes =
      if T ≥ WarnLevel then
        s.writes ++ [mkEntry (SetOutputLevel l T) now ZapLevel.warn
          (maybeSprintf sprintf format fields)]
      else s.writes) ∧
    ((Errorf (SetOutputLevel l T) ft now sprintf format fields s).writes =
      if T ≥ ErrorLevel then
        s.writes ++ [mkEntry (SetOutputLevel l T) now ZapLevel.error
          (maybeSprintf sprintf format fields)]
      else s.writes) ∧
    ((Fatalf (SetOutputLevel l T) ft now sprintf format fields s).writes =
      if T ≥ FatalLevel then
        s.writes ++ [mkEntry (SetOutputLevel l T) now ZapLevel.fatal
          (maybeSprintf sprintf format fields)]
      else s.writes) := by
  refine ⟨by decide, ?_, ?_, ?_, ?_, ?_, ?_, ?_, ?_, ?_, ?_, ?_, ?_, ?_, ?_, ?_⟩
  · simp [DebugEnabled, GetOutputLevel, SetOutputLevel]
  · simp [InfoEnabled, GetOutputLevel, SetOutputLevel]
  · simp [WarnEnabled, GetOutputLevel, SetOutputLevel]
  · simp [ErrorEnabled, GetOutputLevel, SetOutputLevel]
  · simp [FatalEnabled, GetOutputLevel, SetOutputLevel]
  · exact guard_output_writes _ _ _ _ _ _ _ hact
  · exact guard_output_writes _ _ _ _ _ _ _ hact
  · exact guard_output_writes _ _ _ _ _ _ _ hact
  · exact guard_output_writes _ _ _ _ _ _ _ hact
  · exact guard_output_writes _ _ _ _ _ _ _ hact
  · exact guard_output_writes _ _ _ _ _ _ _ hact
  · exact guard_output_writes _ _ _ _ _ _ _ hact
  · exact guard_output_writes _ _ _ _ _ _ _ hact
  · exact guard_output_writes _ _ _ _ _ _ _ hact
  · exact guard_output_writes _ _ _ _ _ _ _ hact

/-- C5 witness: the enablement theorem applied at the concrete threshold
Warn: info output is then disabled and a concrete `Info` call leaves the
write trace unchanged. -/
theorem level_threshold_enablement_witness :
    ({ writeActive := true, writeResult := fun _ => none } :
        functionTable).writeActive = true ∧
    ((Info (SetOutputLevel
        { name := "default", callerSkip := 1, outputLevel := DebugLevel,
          stackTraceLevel := NoneLevel, logCallers := false } WarnLevel)
        { writeActive := true, writeResult := fun _ => none }
        0 "m" SinkState.empty).writes =
      if WarnLevel ≥ InfoLevel then
        SinkState.empty.writes ++ [mkEntry (SetOutputLevel
          { name := "default", callerSkip := 1, outputLevel := DebugLevel,
            stackTraceLevel := NoneLevel, logCallers := false } WarnLevel)
          0 ZapLevel.info "m"]
      else SinkState.empty.writes) :=
  ⟨rfl,
   (level_threshold_enablement
      { name := "default", callerSkip := 1, outputLevel := DebugLevel,
        stackTraceLevel := NoneLevel, logCallers := false }
      { writeActive := true, writeResult := fun _ => none }
      0 WarnLevel "m" (fun f _ => f) "f" [] SinkState.empty
      rfl).2.2.2.2.2.2.2.1⟩

/-- C8: a write failure at log time is reported and swallowed: when the
installed write function returns an error for the entry, `output`
appends exactly one diagnostic line to the error sink and syncs that
sink once, and otherwise leaves the error sink untouched; in both cases
the call completes returning only the new sink trace — the embedded
`output` (like every Go log method, all of which return nothing) has no
error channel, so no write error ever reaches the caller of a log
method. -/
theorem write_error_swallowed (l : LoggerState) (ft : functionTable)
    (now : Nat) (zl : ZapLevel) (msg : String) (s : SinkState)
    (hact : ft.writeActive = true) :
    (∀ err, ft.writeResult (mkEntry l now zl msg) = some err →
      output l ft now zl msg s =
        { writes := s.writes ++ [mkEntry l now zl msg]
          errorSinkLines := s.errorSinkLines ++ [writeErrorDiag now err]
          errorSinkSyncs := s.errorSinkSyncs + 1
          exitCalls :=
            if zl = ZapLevel.fatal then s.exitCalls ++ [1] else s.exitCalls }) ∧
    (ft.writeResult (mkEntry l now zl msg) = none →
      output l ft now zl msg s =
        { writes := s.writes ++ [mkEntry l now zl msg]
          errorSinkLines := s.errorSinkLines
          errorSinkSyncs := s.errorSinkSyncs
          exitCalls :=
            if zl = ZapLevel.fatal then s.exitCalls ++ [1] else s.exitCalls }) := by
  constructor
  · intro err hres
    unfold output ftWrite
    rw [if_pos hact, hres]
    simp only [mkEntry]
    split <;> rfl
  · intro hres
    unfold output ftWrite
    rw [if_pos hact, hres]
    simp only [mkEntry]
    split <;> rfl

/-- C8 witness: the swallowing theorem applied at a concrete failing
write oracle. -/
theorem write_error_swallowed_witness :
    (({ writeActive := true, writeResult := fun _ => some "disk full" } :
        functionTable).writeResult
      (mkEntry
        { name := "default", callerSkip := 1, outputLevel := InfoLevel,
          stackTraceLevel := NoneLevel, logCallers := false }
        7 ZapLevel.info "hello") = some "disk full") ∧
    output
      { name := "default", callerSkip := 1, outputLevel := InfoLevel,
        stackTraceLevel := NoneLevel, logCallers := false }
      { writeActive := true, writeResult := fun _ => some "disk full" }
      7 ZapLevel.info "hello" SinkState.empty =
      { writes := SinkState.empty.writes ++
          [mkEntry
            { name := "default", callerSkip := 1, outputLevel := InfoLevel,
              stackTraceLevel := NoneLevel, logCallers := false }
            7 ZapLevel.info "hello"]
        errorSinkLines := SinkState.empty.errorSinkLines ++
          [writeErrorDiag 7 "disk full"]
        errorSinkSyncs := SinkState.empty.errorSinkSyncs + 1
        exitCalls :=
          if ZapLevel.info = ZapLevel.fatal then
            SinkState.empty.exitCalls ++ [1]
          else SinkState.empty.exitCalls } :=
  ⟨rfl,
   (write_error_swallowed
      { name := "default", callerSkip := 1, outputLevel := InfoLevel,
        stackTraceLevel := NoneLevel, logCallers := false }
      { writeActive := true, writeResult := fun _ => some "disk full" }
      7 ZapLevel.info "hello" SinkState.empty rfl).1 "disk full" rfl⟩

/-- C10: `maybeSprintf` returns the format string verbatim when no
variadic arguments are supplied and applies the Sprintf oracle only when
at least one argument is present; consequently every formatted-variant
log call with zero arguments emits the format string itself as the
message. -/
theorem formatted_variants_zero_args_verbatim
    (sprintf : String → List String → String) (format : String)
    (args : List String) (l : LoggerState) (ft : functionTable)
    (now : Nat) (s : SinkState) :
    maybeSprintf sprintf format [] = format ∧
    (args ≠ [] → maybeSprintf sprintf format args = sprintf format args) ∧
    (ft.writeActive = true →
      (GetOutputLevel l ≥ DebugLevel →
        (Debugf l ft now sprintf format [] s).writes =
          s.writes ++ [mkEntry l now ZapLevel.debug format]) ∧
      (GetOutputLevel l ≥ InfoLevel →
        (Infof l ft now sprintf format [] s).writes =
          s.writes ++ [mkEntry l now ZapLevel.info format]) ∧
      (GetOutputLevel l ≥ WarnLevel →
        (Warnf l ft now sprintf format [] s).writes =
          s.writes ++ [mkEntry l now ZapLevel.warn format]) ∧
      (GetOutputLevel l ≥ ErrorLevel →
        (Errorf l ft now sprintf format [] s).writes =
          s.writes ++ [mkEntry l now ZapLevel.error format]) ∧
      (GetOutputLevel l ≥ FatalLevel →
        (Fatalf l ft now sprintf format [] s).writes =
          s.writes ++ [mkEntry l now ZapLevel.fatal format])) := by
  refine ⟨by simp [maybeSprintf], ?_, ?_⟩
  · intro h
    rw [maybeSprintf, if_pos (by simpa using List.length_pos.mpr h)]
  · intro hact
    have hms : maybeSprintf sprintf format [] = format := by
      simp [maybeSprintf]
    refine ⟨?_, ?_, ?_, ?_, ?_⟩ <;>
      · intro hen
        first
        | rw [Debugf, if_pos hen, hms, output_writes _ _ _ _ _ _ hact]
        | rw [Infof, if_pos hen, hms, output_writes _ _ _ _ _ _ hact]
        | rw [Warnf, if_pos hen, hms, output_writes _ _ _ _ _ _ hact]
        | rw [Errorf, if_pos hen, hms, output_writes _ _ _ _ _ _ hact]
        | rw [Fatalf, if_pos hen, hms, output_writes _ _ _ _ _ _ hact]

/-- C10 witness: the verbatim theorem applied at a concrete call with a
format string containing a percent verb and no arguments. -/
theorem formatted_variants_zero_args_verbatim_witness :
    (["x"] : List String) ≠ [] ∧
    maybeSprintf (fun f _ => f ++ "!") "100%s done" ["x"] =
      (fun (f : String) (_ : List String) => f ++ "!") "100%s done" ["x"] ∧
    maybeSprintf (fun f _ => f ++ "!") "100%s done" [] = "100%s done" :=
  ⟨by decide,
   (formatted_variants_zero_args_verbatim (fun f _ => f ++ "!") "100%s done"
      ["x"]
      { name := "default", callerSkip := 1, outputLevel := InfoLevel,
        stackTraceLevel := NoneLevel, logCallers := false }
      { writeActive := true, writeResult := fun _ => none }
      0 SinkState.empty).2.1 (by decide),
   (formatted_variants_zero_args_verbatim (fun f _ => f ++ "!") "100%s done"
      ["x"]
      { name := "default", callerSkip := 1, outputLevel := InfoLevel,
        stackTraceLevel := NoneLevel, logCallers := false }
      { writeActive := true, writeResult := fun _ => none }
      0 SinkState.empty).1⟩

/-- C7 counterexample: at the valid UTC instant with year 10000 the
encoder does not render the time — it emits the last four year digits
only ("0000"), so the output is not the spec form for that time (whose
year cannot be shown in four digits); the 27-character shape itself
still holds. -/
theorem formatDate_truncates_five_digit_year :
    (⟨10000, 1, 1, 0, 0, 0, 0⟩ : GoTime).valid ∧
    formatDate ⟨10000, 1, 1, 0, 0, 0, 0⟩ ≠ specTimestamp ⟨10000, 1, 1, 0, 0, 0, 0⟩ ∧
    formatDate ⟨10000, 1, 1, 0, 0, 0, 0⟩ = "0000-01-01T00:00:00.000000Z" ∧
    specTimestamp ⟨10000, 1, 1, 0, 0, 0, 0⟩ = "10000-01-01T00:00:00.000000Z" := by
  refine ⟨by decide, by decide, by decide, by decide⟩

/-- C7 amended: the purpose-built encoder always emits exactly 27
characters, and for every valid UTC instant whose year fits in four
digits (year ≤ 9999) the output is exactly the spec form
`YYYY-MM-DDTHH:MM:SS.mmmmmmZ` — each field the zero-padded decimal
rendering of the corresponding UTC component at microsecond precision,
with a literal trailing Z; times with five or more year digits keep the
27-character shape but show the year modulo 10000. -/
theorem formatDate_spec_for_four_digit_years (t : GoTime) :
    (formatDate t).length = 27 ∧
    (t.valid → t.year ≤ 9999 → formatDate t = specTimestamp t) := by
  constructor
  · rfl
  · intro hv hy
    obtain ⟨hm1, hm2, hd1, hd2, hh, hmin, hsec, hn⟩ := hv
    have hmic : t.nanos / 1000 ≤ 999999 := by omega
    rw [specTimestamp,
      padDecimal_four t.year (by omega),
      padDecimal_two t.month (by omega),
      padDecimal_two t.day (by omega),
      padDecimal_two t.hour (by omega),
      padDecimal_two t.minute (by omega),
      padDecimal_two t.second (by omega),
      padDecimal_six _ hmic]
    rw [formatDate]
    simp

/-- C7 witness: the amended theorem applied at a concrete instant,
with both sides evaluated. -/
theorem formatDate_spec_for_four_digit_years_witness :
    (⟨2024, 3, 7, 9, 5, 2, 123456789⟩ : GoTime).valid ∧
    (⟨2024, 3, 7, 9, 5, 2, 123456789⟩ : GoTime).year ≤ 9999 ∧
    formatDate ⟨2024, 3, 7, 9, 5, 2, 123456789⟩ =
      specTimestamp ⟨2024, 3, 7, 9, 5, 2, 123456789⟩ :=
  ⟨by decide, by decide,
   (formatDate_spec_for_four_digit_years ⟨2024, 3, 7, 9, 5, 2, 123456789⟩).2
      (by decide) (by decide)⟩

end ComponentBase.Log
